import Mathlib

/-!
Verification of the `ell` cooperative task runtime (C++ headers) against its
natural-language specification.

Shallow embedding notes:
* `src/details/result_holder.hpp` (`ResultHolderImpl<buffer_size_, align_>`):
  the type-erased stored object is modelled as a `Value` carrying the
  `sizeof`/`alignof` of its concrete C++ type plus an abstract payload.
  `obj_` (the type-erased pointer) is `Option Value`; `eptr_` is `Option Exn`.
  Whether the object lives in the inline `storage_` buffer (placement new)
  or on the heap is recorded in `objInline`.
* `src/details/task_impl.hpp` (`TaskImpl`): the boost symmetric coroutine is
  modelled as a phase machine (`CoroPhase`). `suspend()` consists of
  `(*yield_)()` (control leaves the coroutine) followed, on the next
  `resume()`, by the re-entry code at lines 78-83 which checks
  `pending_cancel_`; that re-entry half is `TaskImpl.suspend_reentry`.
  The C++ `unsigned int wait_count_` is modelled as `Int` so that the
  non-negativity invariant is a real statement; `decr_wait_count`'s
  `ELL_ASSERT(wait_count_ > 0, ...)` is modelled by returning `none`
  (assertion failure / invariant violation) when the guard fails.
* `src/ell.hpp`: the `thread_local EventLoop *current_loop` is modelled as an
  `Option Nat` (a null-or-valid pointer to a loop identified by a number).
* Exceptions: the coroutine top frame catches `const std::exception &`; all
  failure kinds of the runtime derive from it. `ex::Cancelled` (header
  `exceptions/cancelled.hpp`, thrown at task_impl.hpp line 82) is one
  constructor of `Exn`; `userError n` stands for any other such failure.
-/

namespace ell

/-- Failures that can travel through the runtime.  `Cancelled` is the
exception thrown by `TaskImpl::suspend` on cancellation delivery; `userError`
stands for any other `std::exception`-derived failure raised by user code. -/
inductive Exn where
  | Cancelled : Exn
  | userError : Nat → Exn
deriving DecidableEq, Repr

/-- Static data of a concrete C++ type: its `sizeof` and `alignof`. -/
structure CppType where
  size : Nat
  align : Nat
deriving DecidableEq, Repr

/-- A type-erased stored object: its concrete C++ type plus an abstract
payload standing for the object's bytes. -/
structure Value where
  type : CppType
  data : Nat
deriving DecidableEq, Repr

/-- Outcome of `ResultHolderImpl::get`.  `nullDerefUB` is the undefined behaviour
of dereferencing `obj_.get()` when it is a null pointer (nothing stored). -/
inductive GetOutcome where
  | value : Value → GetOutcome
  | raised : Exn → GetOutcome
  | nullDerefUB : GetOutcome
deriving DecidableEq, Repr

/-- True iff the outcome is a raised failure. -/
def GetOutcome.isRaise : GetOutcome → Bool
  | .raised _ => true
  | _ => false

/-- State of `ResultHolderImpl<buffer_size_, align_>` (result_holder.hpp).
`eptr` is `eptr_` (null or an exception), `obj` is the type-erased pointer
`obj_` (null or pointing at a stored object), and `objInline` records whether
the stored object was placement-new'd into the inline `storage_` buffer. -/
structure ResultHolderImpl (buffer_size_ align_ : Nat) where
  eptr : Option Exn := none
  obj : Option Value := none
  objInline : Bool := false
deriving DecidableEq, Repr

/-- Model of `ResultHolderImpl::store` (result_holder.hpp lines 45-70): if
`sizeof(ConcreteType) <= buffer_size_` the object is placement-new'd into the
inline buffer, otherwise it is heap-allocated; in both branches `obj_` is
assigned unconditionally (a previous object is destroyed by the outgoing
deleter and silently replaced).  The `static_assert(alignof(T) <= align_)` is
a compile-time precondition, carried as a hypothesis in the theorems. -/
def ResultHolderImpl.store {bs al : Nat} (h : ResultHolderImpl bs al)
    (v : Value) : ResultHolderImpl bs al :=
  if v.type.size ≤ bs then
    { h with obj := some v, objInline := true }
  else
    { h with obj := some v, objInline := false }

/-- Model of `ResultHolderImpl::store_exception` (lines 75-79):
`assert(eptr_ == nullptr)` then `eptr_ = eptr`.  A failed assertion is
modelled as `none`. -/
def ResultHolderImpl.store_exception {bs al : Nat} (h : ResultHolderImpl bs al)
    (e : Exn) : Option (ResultHolderImpl bs al) :=
  if h.eptr = none then some { h with eptr := some e } else none

/-- Model of `ResultHolderImpl::get` (lines 84-95): if `eptr_` is set,
rethrow it; otherwise dereference `obj_.get()` and return the object.  When
nothing was stored `obj_.get()` is a null pointer and the dereference is
undefined behaviour (`nullDerefUB`). -/
def ResultHolderImpl.get {bs al : Nat} (h : ResultHolderImpl bs al) :
    GetOutcome :=
  match h.eptr with
  | some e => .raised e
  | none =>
    match h.obj with
    | some v => .value v
    | none => .nullDerefUB

/-- Operational model of a full `get` call: its outcome together with the
holder state after the call.  The body of `get` assigns neither `eptr_` nor
`obj_`; for trivially copyable payloads (such as the `int` results used by
the tests) the stored bytes are also left unchanged, so the post-state is the
holder itself. -/
def ResultHolderImpl.getRun {bs al : Nat} (h : ResultHolderImpl bs al) :
    GetOutcome × ResultHolderImpl bs al :=
  (h.get, h)

/-- Default instantiation `using ResultHolder = ResultHolderImpl<32, 8>`
(result_holder.hpp line 103). -/
abbrev ResultHolder := ResultHolderImpl 32 8

/-- A freshly constructed holder: `eptr_` and `obj_` both null. -/
def ResultHolder.empty : ResultHolder := {}

/-- Phase of the boost symmetric coroutine wrapped by `TaskImpl`. -/
inductive CoroPhase where
  | created
  | entryBarrier
  | runningUser
  | done
deriving DecidableEq, Repr

/-- State of a `TaskImpl` (task_impl.hpp).  `yieldSet` models
`yield_ != nullptr`; `callableStarted` records whether any of the user
callable's code has begun executing; the remaining fields are the members
`result_`, `wait_count_`, `id_`, `is_active_`, `cancelled_` and
`pending_cancel_`.  `wait_count` is `Int` (see the header comment). -/
structure TaskState where
  phase : CoroPhase
  yieldSet : Bool
  callableStarted : Bool
  result : ResultHolder
  wait_count : Int
  id : Nat
  is_active : Bool
  cancelled : Bool
  pending_cancel : Bool
deriving DecidableEq, Repr

/-- Member-initializer state of the `TaskImpl` constructor (lines 38-46),
before `setup_coroutine` runs: no coroutine yet, `yield_` null,
`wait_count_ = 0`, `is_active_ = cancelled_ = pending_cancel_ = false`. -/
def TaskState.raw (i : Nat) : TaskState :=
  { phase := .created
    yieldSet := false
    callableStarted := false
    result := ResultHolder.empty
    wait_count := 0
    id := i
    is_active := false
    cancelled := false
    pending_cancel := false }

/-- Model of `TaskImpl::setup_coroutine` (lines 177-208): the coroutine
object is built around the wrapper lambda and then run once (`coroutine_()`
at line 207).  That first run only executes the initialization prefix of the
lambda — store `&yield` into `yield_`, then `yield()` — and stops at that
entry barrier.  None of the user callable runs and nothing is stored. -/
def TaskImpl.setup_coroutine (s : TaskState) : TaskState :=
  { s with phase := CoroPhase.entryBarrier, yieldSet := true }

/-- Model of the `TaskImpl` constructor: member initializers, then
`setup_coroutine(callable)`. -/
def TaskImpl.construct (i : Nat) : TaskState :=
  TaskImpl.setup_coroutine (TaskState.raw i)

/-- Model of the first `TaskImpl::resume` (lines 69-73) on a task parked at
the entry barrier: control passes the barrier `yield()` and the user
callable starts executing inside `wrap_user_call`. -/
def TaskImpl.resumeStart (s : TaskState) : TaskState :=
  { s with phase := CoroPhase.runningUser, callableStarted := true }

/-- Model of the re-entry half of `TaskImpl::suspend` (lines 75-84): after
`(*yield_)()` returns (the task has been resumed), if `pending_cancel_` is
set it is cleared and `ex::Cancelled` is thrown inside the coroutine before
control returns to user code.  The boolean records whether `Cancelled` was
delivered. -/
def TaskImpl.suspend_reentry (s : TaskState) : TaskState × Bool :=
  if s.pending_cancel then ({ s with pending_cancel := false }, true)
  else (s, false)

/-- Model of `TaskImpl::cancel` (lines 147-151): set `pending_cancel_`.
(The `request_task_cancel` call is commented out in the source.) -/
def TaskImpl.cancel (s : TaskState) : TaskState :=
  { s with pending_cancel := true }

/-- Model of `TaskImpl::incr_wait_count` (lines 130-133). -/
def TaskImpl.incr_wait_count (s : TaskState) : TaskState :=
  { s with wait_count := s.wait_count + 1 }

/-- Model of `TaskImpl::decr_wait_count` (lines 138-142):
`ELL_ASSERT(wait_count_ > 0, "wait_count cannot be negative.")` then
decrement.  A failed assertion (decrement at zero) is `none`. -/
def TaskImpl.decr_wait_count (s : TaskState) : Option TaskState :=
  if 0 < s.wait_count then some { s with wait_count := s.wait_count - 1 }
  else none

/-- Model of `TaskImpl::get_result` (lines 59-63): delegate to
`result_.get<T>()`. -/
def TaskImpl.get_result (s : TaskState) : GetOutcome :=
  s.result.get

/-- Model of `TaskImpl::is_complete` (lines 86-89): the coroutine object is
falsy exactly when the coroutine has finished. -/
def TaskImpl.is_complete (s : TaskState) : Bool :=
  s.phase == CoroPhase.done

/-- Exit behaviour of the user callable at the coroutine's top frame: it
either returns a value or lets a failure propagate out. -/
inductive CallResult where
  | ret : Value → CallResult
  | exits : Exn → CallResult
deriving DecidableEq, Repr

/-- Model of the coroutine wrapper's top frame (task_impl.hpp lines 196-203
together with `wrap_user_call`, lines 159-172): `try { wrap_user_call(...) }`
stores the returned value via `result_.store(...)`; `catch (const
std::exception &)` stores the in-flight failure via
`result_.store_exception(std::current_exception())`.  Afterwards the
coroutine body ends, so the task is complete. -/
def TaskImpl.coroutineTopFrame (s : TaskState) (r : CallResult) :
    Option TaskState :=
  match r with
  | .ret v => some { s with result := s.result.store v, phase := CoroPhase.done }
  | .exits e =>
    (s.result.store_exception e).map
      (fun h => { s with result := h, phase := CoroPhase.done })

/-- Alphabet of externally driven `TaskImpl` member calls used for trace
reasoning about cancellation and the wait count. -/
inductive TaskOp where
  | cancel
  | suspendReenter
  | incrWait
  | decrWait
  | setActive : Bool → TaskOp
deriving DecidableEq, Repr

/-- One member call.  The boolean records whether this call delivered a
`Cancelled` failure into the coroutine; `none` is an assertion failure. -/
def applyOp (s : TaskState) : TaskOp → Option (TaskState × Bool)
  | .cancel => some (TaskImpl.cancel s, false)
  | .suspendReenter => some (TaskImpl.suspend_reentry s)
  | .incrWait => some (TaskImpl.incr_wait_count s, false)
  | .decrWait => (TaskImpl.decr_wait_count s).map (fun t => (t, false))
  | .setActive b => some ({ s with is_active := b }, false)

/-- Run a sequence of member calls, counting `Cancelled` deliveries. -/
def runOps (s : TaskState) : List TaskOp → Option (TaskState × Nat)
  | [] => some (s, 0)
  | op :: ops =>
    match applyOp s op with
    | none => none
    | some (s', d) =>
      match runOps s' ops with
      | none => none
      | some (st, n) => some (st, (if d then 1 else 0) + n)

/-- Number of `cancel` calls in a trace. -/
def countCancels : List TaskOp → Nat
  | [] => 0
  | op :: ops => (if op = TaskOp.cancel then 1 else 0) + countCancels ops

/-- Model of `details::set_current_event_loop` (ell.hpp lines 23-29).  The
`EventLoop *` is an `Option Nat` (`none` is the null pointer).  The function
hides `static thread_local EventLoop *current_loop = nullptr`; the first
component is the thread-local's value after the call, the second the returned
pointer. -/
def set_current_event_loop (current : Option Nat) (loop : Option Nat)
    (set : Bool) : Option Nat × Option Nat :=
  let c := if set then loop else current
  (c, c)

/-- Model of `details::get_current_event_loop` (ell.hpp lines 34-37):
`return set_current_event_loop(nullptr, false);`. -/
def get_current_event_loop (current : Option Nat) : Option Nat :=
  (set_current_event_loop current none false).2

/-- Thread-local initial value: `current_loop = nullptr` before any loop has
installed itself. -/
def threadLocalInitial : Option Nat := none

/-- Outcome of a free function that calls a method through the pointer
returned by `get_current_event_loop`: either the method is invoked on a
valid loop, or the null pointer is dereferenced. -/
inductive FreeCallOutcome where
  | invoked : Nat → FreeCallOutcome
  | nullDeref : FreeCallOutcome
deriving DecidableEq, Repr

/-- Model of `ell::yield` (ell.hpp lines 61-64):
`details::get_current_event_loop()->suspend_current_task();` — the pointer is
dereferenced unconditionally, with no null check. -/
def yield (current : Option Nat) : FreeCallOutcome :=
  match get_current_event_loop current with
  | none => .nullDeref
  | some l => .invoked l

/-- Model of `ell::sleep` (ell.hpp lines 66-70):
`details::get_current_event_loop()->sleep_current_task(duration);` — again no
null check.  The duration is irrelevant to the dereference. -/
def sleep (current : Option Nat) (_duration : Nat) : FreeCallOutcome :=
  match get_current_event_loop current with
  | none => .nullDeref
  | some l => .invoked l

/-!  Trace lemmas shared by the cancellation and wait-count claims. -/

/-- Per-call accounting of cancellation: one call can deliver `Cancelled` at
most by consuming a pending request, and only `cancel` creates one. -/
theorem applyOp_pending_bound (s : TaskState) (op : TaskOp) (s' : TaskState)
    (d : Bool) (h : applyOp s op = some (s', d)) :
    (if d then 1 else 0) + (if s'.pending_cancel then 1 else 0) ≤
      (if op = TaskOp.cancel then 1 else 0) +
        (if s.pending_cancel then 1 else 0) := by
  cases op with
  | cancel =>
    simp only [applyOp, TaskImpl.cancel, Option.some.injEq, Prod.mk.injEq] at h
    obtain ⟨hs, hd⟩ := h
    subst hs; subst hd
    simp
  | suspendReenter =>
    simp only [applyOp, TaskImpl.suspend_reentry] at h
    by_cases hp : s.pending_cancel <;> simp [hp] at h <;>
      obtain ⟨hs, hd⟩ := h <;> subst hs <;> subst hd <;> simp [hp]
  | incrWait =>
    simp only [applyOp, TaskImpl.incr_wait_count, Option.some.injEq,
      Prod.mk.injEq] at h
    obtain ⟨hs, hd⟩ := h
    subst hs; subst hd
    simp
  | decrWait =>
    simp only [applyOp, TaskImpl.decr_wait_count] at h
    by_cases hw : 0 < s.wait_count <;> simp [hw] at h
    obtain ⟨hs, hd⟩ := h
    subst hs; subst hd
    simp
  | setActive b =>
    simp only [applyOp, Option.some.injEq, Prod.mk.injEq] at h
    obtain ⟨hs, hd⟩ := h
    subst hs; subst hd
    simp

/-- Only the re-entry of `suspend` can report a delivery. -/
theorem applyOp_delivery_only_suspend (s : TaskState) (op : TaskOp)
    (s' : TaskState) (d : Bool) (h : applyOp s op = some (s', d))
    (hd : d = true) : op = TaskOp.suspendReenter := by
  subst hd
  cases op with
  | suspendReenter => rfl
  | cancel => simp [applyOp] at h
  | incrWait => simp [applyOp] at h
  | decrWait =>
    simp only [applyOp, TaskImpl.decr_wait_count] at h
    by_cases hw : 0 < s.wait_count <;> simp [hw] at h
  | setActive b => simp [applyOp] at h

/-- Cancellation accounting along a trace: the number of deliveries plus the
still-pending request is bounded by the number of `cancel` calls plus any
initially pending request. -/
theorem runOps_deliveries_bound (ops : List TaskOp) :
    ∀ (s st : TaskState) (n : Nat), runOps s ops = some (st, n) →
      n + (if st.pending_cancel then 1 else 0) ≤
        countCancels ops + (if s.pending_cancel then 1 else 0) := by
  induction ops with
  | nil =>
    intro s st n h
    simp only [runOps, Option.some.injEq, Prod.mk.injEq] at h
    obtain ⟨hs, hn⟩ := h
    subst hs; subst hn
    simp
  | cons op ops ih =>
    intro s st n h
    simp only [runOps] at h
    split at h
    · cases h
    · rename_i s' d happ
      split at h
      · cases h
      · rename_i st' n' hr
        simp only [Option.some.injEq, Prod.mk.injEq] at h
        obtain ⟨hst, hn⟩ := h
        subst hst; subst hn
        have h1 := applyOp_pending_bound s op s' d happ
        have h2 := ih s' st' n' hr
        simp only [countCancels]
        omega

/-- The wait count stays non-negative across any successful member call. -/
theorem applyOp_wait_count_nonneg (s : TaskState) (op : TaskOp)
    (s' : TaskState) (d : Bool) (h : applyOp s op = some (s', d))
    (hs : 0 ≤ s.wait_count) : 0 ≤ s'.wait_count := by
  cases op with
  | cancel =>
    simp only [applyOp, TaskImpl.cancel, Option.some.injEq, Prod.mk.injEq] at h
    obtain ⟨h1, _⟩ := h; subst h1; exact hs
  | suspendReenter =>
    simp only [applyOp, TaskImpl.suspend_reentry] at h
    by_cases hp : s.pending_cancel <;> simp [hp] at h <;>
      obtain ⟨h1, _⟩ := h <;> subst h1 <;> exact hs
  | incrWait =>
    simp only [applyOp, TaskImpl.incr_wait_count, Option.some.injEq,
      Prod.mk.injEq] at h
    obtain ⟨h1, _⟩ := h; subst h1
    simp only []
    omega
  | decrWait =>
    simp only [applyOp, TaskImpl.decr_wait_count] at h
    by_cases hw : 0 < s.wait_count <;> simp [hw] at h
    obtain ⟨h1, _⟩ := h; subst h1
    simp only []
    omega
  | setActive b =>
    simp only [applyOp, Option.some.injEq, Prod.mk.injEq] at h
    obtain ⟨h1, _⟩ := h; subst h1; exact hs

/-- Non-negativity of the wait count along any successful trace. -/
theorem runOps_wait_count_nonneg (ops : List TaskOp) :
    ∀ (s st : TaskState) (n : Nat), 0 ≤ s.wait_count →
      runOps s ops = some (st, n) → 0 ≤ st.wait_count := by
  induction ops with
  | nil =>
    intro s st n hs h
    simp only [runOps, Option.some.injEq, Prod.mk.injEq] at h
    obtain ⟨h1, _⟩ := h; subst h1; exact hs
  | cons op ops ih =>
    intro s st n hs h
    simp only [runOps] at h
    split at h
    · cases h
    · rename_i s' d happ
      split at h
      · cases h
      · rename_i st' n' hr
        simp only [Option.some.injEq, Prod.mk.injEq] at h
        obtain ⟨hst, _⟩ := h
        subst hst
        exact ih s' st' n' (applyOp_wait_count_nonneg s op s' d happ hs) hr

/-- Claim C1: when `suspend()` is re-entered while `cancel_pending` is set,
it clears the pending flag and raises `Cancelled` inside the coroutine
before control returns to user code; along any trace of member calls from a
freshly constructed task the number of `Cancelled` deliveries never exceeds
the number of `cancel()` calls; and the re-entry of `suspend()` is the only
member call that delivers cancellation. -/
theorem suspend_delivers_cancellation :
    (∀ s : TaskState, s.pending_cancel = true →
      (TaskImpl.suspend_reentry s).2 = true ∧
      (TaskImpl.suspend_reentry s).1.pending_cancel = false) ∧
    (∀ (i : Nat) (ops : List TaskOp) (st : TaskState) (n : Nat),
      runOps (TaskImpl.construct i) ops = some (st, n) →
        n ≤ countCancels ops) ∧
    (∀ (s : TaskState) (op : TaskOp) (s' : TaskState) (d : Bool),
      applyOp s op = some (s', d) → d = true →
        op = TaskOp.suspendReenter) := by
  refine ⟨?_, ?_, ?_⟩
  · intro s h
    simp [TaskImpl.suspend_reentry, h]
  · intro i ops st n h
    have h0 := runOps_deliveries_bound ops (TaskImpl.construct i) st n h
    have hp : (TaskImpl.construct i).pending_cancel = false := rfl
    rw [hp] at h0
    simp only [Bool.false_eq_true, if_false] at h0
    omega
  · exact applyOp_delivery_only_suspend

/-- Witness for C1 at a concrete task and trace: one `cancel()` on task 1
followed by one re-entry of `suspend()` delivers exactly once. -/
theorem suspend_delivers_cancellation_witness :
    (TaskImpl.suspend_reentry (TaskImpl.cancel (TaskImpl.construct 1))).2
        = true ∧
    (TaskImpl.suspend_reentry
        (TaskImpl.cancel (TaskImpl.construct 1))).1.pending_cancel = false ∧
    (1 : Nat) ≤ countCancels [TaskOp.cancel, TaskOp.suspendReenter] ∧
    TaskOp.suspendReenter = TaskOp.suspendReenter := by
  refine ⟨?_, ?_, ?_, ?_⟩
  · exact (suspend_delivers_cancellation.1
      (TaskImpl.cancel (TaskImpl.construct 1)) rfl).1
  · exact (suspend_delivers_cancellation.1
      (TaskImpl.cancel (TaskImpl.construct 1)) rfl).2
  · exact suspend_delivers_cancellation.2.1 1
      [TaskOp.cancel, TaskOp.suspendReenter] (TaskImpl.construct 1) 1
      (by decide)
  · exact suspend_delivers_cancellation.2.2
      (TaskImpl.cancel (TaskImpl.construct 1)) TaskOp.suspendReenter
      (TaskImpl.construct 1) true (by decide) rfl

/-- Claim C2 (code bug): delivering `Cancelled` does not set the `cancelled_`
flag.  On task 1, after `cancel()` and a re-entry of `suspend()` that
delivers (`.2 = true`), the `cancelled_` member is still `false`; moreover no
member call and no coroutine exit ever changes `cancelled_` — the field is
assigned only in the constructor's initializer list. -/
theorem cancellation_delivery_never_sets_cancelled_flag :
    (TaskImpl.suspend_reentry (TaskImpl.cancel (TaskImpl.construct 1))).2
        = true ∧
    (TaskImpl.suspend_reentry
        (TaskImpl.cancel (TaskImpl.construct 1))).1.cancelled = false ∧
    (∀ (s : TaskState) (op : TaskOp),
      ((applyOp s op).map (fun r => r.1.cancelled)).getD s.cancelled
        = s.cancelled) ∧
    (∀ (s : TaskState) (r : CallResult),
      ((TaskImpl.coroutineTopFrame s r).map
          (fun t => t.cancelled)).getD s.cancelled = s.cancelled) ∧
    (∀ s : TaskState, (TaskImpl.resumeStart s).cancelled = s.cancelled) := by
  refine ⟨rfl, rfl, ?_, ?_, fun s => rfl⟩
  · intro s op
    cases op with
    | cancel => rfl
    | suspendReenter =>
      simp only [applyOp, TaskImpl.suspend_reentry]
      by_cases hp : s.pending_cancel <;> simp [hp]
    | incrWait => rfl
    | decrWait =>
      simp only [applyOp, TaskImpl.decr_wait_count]
      by_cases hw : 0 < s.wait_count <;> simp [hw]
    | setActive b => rfl
  · intro s r
    cases r with
    | ret v => rfl
    | exits e =>
      simp only [TaskImpl.coroutineTopFrame, ResultHolderImpl.store_exception]
      by_cases he : s.result.eptr = none <;> simp [he]

/-- Claim C9: `decr_wait_count` applied at wait count zero fails the
`ELL_ASSERT` (an invariant violation), and along any assertion-free trace of
member calls from a fresh task the wait count stays non-negative. -/
theorem wait_count_never_negative :
    (∀ s : TaskState, s.wait_count = 0 →
      TaskImpl.decr_wait_count s = none) ∧
    (∀ (i : Nat) (ops : List TaskOp) (st : TaskState) (n : Nat),
      runOps (TaskImpl.construct i) ops = some (st, n) →
        0 ≤ st.wait_count) := by
  constructor
  · intro s h
    simp [TaskImpl.decr_wait_count, h]
  · intro i ops st n h
    exact runOps_wait_count_nonneg ops (TaskImpl.construct i) st n
      (le_refl 0) h

/-- Witness for C9: decrementing the fresh task 1 (wait count zero) is an
assertion failure, and the trace `incr` then `decr` ends at wait count 0. -/
theorem wait_count_never_negative_witness :
    TaskImpl.decr_wait_count (TaskImpl.construct 1) = none ∧
    (0 : Int) ≤ (TaskImpl.construct 1).wait_count := by
  constructor
  · exact wait_count_never_negative.1 (TaskImpl.construct 1) rfl
  · exact wait_count_never_negative.2 1 [TaskOp.incrWait, TaskOp.decrWait]
      (TaskImpl.construct 1) 0 (by decide)

/-- Claim C10: before any loop installs itself (and after the current loop
uninstalls by storing the null pointer), `get_current_event_loop()` returns
the null pointer, and the free functions `yield()` and `sleep(duration)`
dereference that pointer unconditionally — they do not fail fast. -/
theorem free_functions_deref_null_without_loop :
    ∀ (l d : Nat),
      get_current_event_loop threadLocalInitial = none ∧
      yield threadLocalInitial = FreeCallOutcome.nullDeref ∧
      sleep threadLocalInitial d = FreeCallOutcome.nullDeref ∧
      get_current_event_loop
        (set_current_event_loop
          (set_current_event_loop threadLocalInitial (some l) true).1
          none true).1 = none ∧
      yield
        (set_current_event_loop
          (set_current_event_loop threadLocalInitial (some l) true).1
          none true).1 = FreeCallOutcome.nullDeref ∧
      sleep
        (set_current_event_loop
          (set_current_event_loop threadLocalInitial (some l) true).1
          none true).1 d = FreeCallOutcome.nullDeref ∧
      yield (set_current_event_loop threadLocalInitial (some l) true).1
        = FreeCallOutcome.invoked l := by
  intro l d
  exact ⟨rfl, rfl, rfl, rfl, rfl, rfl, rfl⟩

/-- Counterexample to C3's consumption clause: after a failure is stored,
`get` raises it, and since `get` assigns neither `eptr_` nor `obj_` the
holder left behind (`getRun.2`) raises the very same failure again on a
second retrieval — the result is not retrievable at most once. -/
theorem get_does_not_consume_slot :
    ((ResultHolder.empty.store_exception (Exn.userError 7)).map
      (fun h => (h.getRun.1, h.getRun.2.get)))
    = some (GetOutcome.raised (Exn.userError 7),
        GetOutcome.raised (Exn.userError 7)) := by
  decide

/-- Claim C3 as amended: for a completed task, `get_result` returns the
stored value if the coroutine returned normally and re-raises the stored
failure if it exited by failure; retrieval does not clear the slot, so a
second retrieval yields the same outcome again. -/
theorem get_result_returns_value_or_reraises :
    ∀ (i : Nat) (v : Value) (e : Exn),
      ((TaskImpl.coroutineTopFrame (TaskImpl.construct i)
          (CallResult.ret v)).map
        (fun st => (TaskImpl.get_result st, st.result.getRun.2.get)))
        = some (GetOutcome.value v, GetOutcome.value v) ∧
      ((TaskImpl.coroutineTopFrame (TaskImpl.construct i)
          (CallResult.exits e)).map
        (fun st => (TaskImpl.get_result st, st.result.getRun.2.get)))
        = some (GetOutcome.raised e, GetOutcome.raised e) := by
  intro i v e
  constructor
  · by_cases hv : v.type.size ≤ 32 <;>
      simp [TaskImpl.coroutineTopFrame, TaskImpl.get_result,
        ResultHolderImpl.getRun, ResultHolderImpl.get, ResultHolderImpl.store,
        TaskImpl.construct, TaskImpl.setup_coroutine, TaskState.raw,
        ResultHolder.empty, hv]
  · simp [TaskImpl.coroutineTopFrame, TaskImpl.get_result,
      ResultHolderImpl.getRun, ResultHolderImpl.get,
      ResultHolderImpl.store_exception, TaskImpl.construct,
      TaskImpl.setup_coroutine, TaskState.raw, ResultHolder.empty]

/-- Counterexample to C4: on a freshly constructed (hence incomplete) task,
`get_result` does not raise any failure — no `ResultNotReady` exists in the
code; it dereferences the null `obj_` pointer, which is undefined
behaviour. -/
theorem get_result_before_completion_no_failure :
    TaskImpl.get_result (TaskImpl.construct 1) = GetOutcome.nullDerefUB ∧
    (TaskImpl.get_result (TaskImpl.construct 1)).isRaise = false ∧
    TaskImpl.is_complete (TaskImpl.construct 1) = false := by
  decide

/-- Claim C4 as amended: calling `get_result` on a task that is not yet
complete (nothing stored) finds `eptr_` null and dereferences the null
`obj_.get()` pointer — undefined behaviour rather than a raised
`ResultNotReady` failure. -/
theorem get_result_before_completion_derefs_null :
    ∀ i : Nat,
      TaskImpl.is_complete (TaskImpl.construct i) = false ∧
      TaskImpl.get_result (TaskImpl.construct i) = GetOutcome.nullDerefUB ∧
      TaskImpl.get_result (TaskImpl.resumeStart (TaskImpl.construct i))
        = GetOutcome.nullDerefUB := by
  intro i
  exact ⟨rfl, rfl, rfl⟩

/-- Counterexample to C5: a second `store` of a value is a silent overwrite,
not an invariant violation — the resulting holder equals one that only ever
saw the second store, and `get` returns the second value; moreover a value
and an exception can coexist (`store_exception` succeeds while `obj_` still
holds a value). -/
theorem second_store_silently_overwrites :
    ((ResultHolder.empty.store
        { type := { size := 4, align := 4 }, data := 1 }).store
        { type := { size := 4, align := 4 }, data := 2 })
      = ResultHolder.empty.store
        { type := { size := 4, align := 4 }, data := 2 } ∧
    ((ResultHolder.empty.store
        { type := { size := 4, align := 4 }, data := 1 }).store
        { type := { size := 4, align := 4 }, data := 2 }).get
      = GetOutcome.value { type := { size := 4, align := 4 }, data := 2 } ∧
    ((ResultHolder.empty.store
        { type := { size := 4, align := 4 }, data := 1 }).store_exception
        Exn.Cancelled).map (fun h => (h.obj, h.get))
      = some (some { type := { size := 4, align := 4 }, data := 1 },
          GetOutcome.raised Exn.Cancelled) := by
  decide

/-- Claim C5 as amended: only `store_exception` enforces at-most-once (its
`assert` fails on a second exception store); a second value `store` silently
destroys and replaces the previous value; and a value and an exception can
both be present, in which case `get` raises the exception. -/
theorem result_slot_store_discipline :
    (∀ (h : ResultHolder) (v v' : Value),
      (h.store v).store v' = h.store v') ∧
    (∀ (h : ResultHolder) (e e' : Exn),
      (h.store_exception e).bind (fun h2 => h2.store_exception e')
        = none) ∧
    (∀ (v : Value) (e : Exn),
      ((ResultHolder.empty.store v).store_exception e).map
        (fun h2 => (h2.obj, h2.get))
      = some (some v, GetOutcome.raised e)) := by
  refine ⟨?_, ?_, ?_⟩
  · intro h v v'
    simp only [ResultHolderImpl.store]
    split <;> split <;> rfl
  · intro h e e'
    simp only [ResultHolderImpl.store_exception]
    by_cases he : h.eptr = none <;> simp [he]
  · intro v e
    by_cases hv : v.type.size ≤ 32 <;>
      simp [ResultHolderImpl.store, ResultHolderImpl.store_exception,
        ResultHolderImpl.get, ResultHolder.empty, hv]

/-- Claim C6: the default `ResultHolder` (inline capacity 32, alignment 8)
stores a value inline exactly when its size is at most 32 bytes and
heap-allocates it otherwise (given the `static_assert` precondition
`alignof(T) <= 8`); in both cases a later `get` yields the stored value. -/
theorem result_slot_small_object_optimization :
    ∀ (h : ResultHolder) (v : Value), v.type.align ≤ 8 →
      (v.type.size ≤ 32 → (h.store v).objInline = true) ∧
      (32 < v.type.size → (h.store v).objInline = false) ∧
      (ResultHolder.empty.store v).get = GetOutcome.value v := by
  intro h v _halign
  refine ⟨?_, ?_, ?_⟩
  · intro hs
    simp [ResultHolderImpl.store, hs]
  · intro hs
    have hns : ¬ v.type.size ≤ 32 := by omega
    simp [ResultHolderImpl.store, hns]
  · by_cases hs : v.type.size ≤ 32 <;>
      simp [ResultHolderImpl.store, ResultHolderImpl.get,
        ResultHolder.empty, hs]

/-- Witness for C6 at a 4-byte value (stored inline) and a 64-byte value
(heap-allocated), both retrievable. -/
theorem result_slot_small_object_optimization_witness :
    (ResultHolder.empty.store
        { type := { size := 4, align := 4 }, data := 5 }).objInline
      = true ∧
    (ResultHolder.empty.store
        { type := { size := 64, align := 8 }, data := 6 }).objInline
      = false ∧
    (ResultHolder.empty.store
        { type := { size := 4, align := 4 }, data := 5 }).get
      = GetOutcome.value { type := { size := 4, align := 4 }, data := 5 } := by
  refine ⟨?_, ?_, ?_⟩
  · exact (result_slot_small_object_optimization ResultHolder.empty
      { type := { size := 4, align := 4 }, data := 5 } (by decide)).1
      (by decide)
  · exact (result_slot_small_object_optimization ResultHolder.empty
      { type := { size := 64, align := 8 }, data := 6 } (by decide)).2.1
      (by decide)
  · exact (result_slot_small_object_optimization ResultHolder.empty
      { type := { size := 4, align := 4 }, data := 5 } (by decide)).2.2

/-- Claim C7: when the user callable exits by a failure that reaches the
coroutine's top frame (`Cancelled` included), the wrapper's catch clause
stores it into the result slot, the task completes, and `get_result`
re-raises that failure. -/
theorem top_frame_failure_captured_and_reraised :
    ∀ (s : TaskState) (e : Exn), s.result.eptr = none →
      ((TaskImpl.coroutineTopFrame s (CallResult.exits e)).map
        (fun st => (TaskImpl.get_result st, TaskImpl.is_complete st)))
      = some (GetOutcome.raised e, true) := by
  intro s e he
  simp [TaskImpl.coroutineTopFrame, ResultHolderImpl.store_exception, he,
    TaskImpl.get_result, ResultHolderImpl.get, TaskImpl.is_complete]

/-- Witness for C7: a fresh task whose callable lets `Cancelled` escape to
the top frame stores it and re-raises it at `get_result`. -/
theorem top_frame_failure_captured_and_reraised_witness :
    ((TaskImpl.coroutineTopFrame (TaskImpl.construct 1)
        (CallResult.exits Exn.Cancelled)).map
      (fun st => (TaskImpl.get_result st, TaskImpl.is_complete st)))
    = some (GetOutcome.raised Exn.Cancelled, true) :=
  top_frame_failure_captured_and_reraised (TaskImpl.construct 1)
    Exn.Cancelled rfl

/-- Claim C8: constructing a task runs none of the callable's code — after
the constructor (member initializers plus `setup_coroutine`, whose single
`coroutine_()` call stops at the entry-barrier `yield()`), the callable has
not started, nothing is stored, the task is not complete, and the callable
first begins executing on the first subsequent `resume()`. -/
theorem construction_does_not_run_callable :
    ∀ i : Nat,
      (TaskImpl.construct i).callableStarted = false ∧
      (TaskImpl.construct i).phase = CoroPhase.entryBarrier ∧
      (TaskImpl.construct i).yieldSet = true ∧
      (TaskImpl.construct i).result = ResultHolder.empty ∧
      TaskImpl.is_complete (TaskImpl.construct i) = false ∧
      (TaskImpl.resumeStart (TaskImpl.construct i)).callableStarted
        = true := by
  intro i
  exact ⟨rfl, rfl, rfl, rfl, rfl, rfl⟩

end ell
